import Mathlib

/-!
Verification of the beam-analysis engine of the CalculTOR repository.

The engine is the `calculate` closure of the beam-load calculator component
(the second component in src/components/calculators/EarthworkCalculator.tsx).
All numeric values are modelled as rationals; the JavaScript `toFixed(2)`
display rounding of the diagram x/moment/shear values is modelled by `round2`
(round to the nearest multiple of 1/100, ties upward).
-/

namespace Beam

/-- Beam support condition (source field `beamType`). -/
inductive BeamType where
  | simplySupported
  | cantilever
deriving DecidableEq, Repr

/-- Load pattern (source field `loadType`). -/
inductive LoadType where
  | pointLoad
  | udl
deriving DecidableEq, Repr

/-- Cross-section model (source field `crossSection`). -/
inductive BeamCrossSection where
  | rectangular
  | ibeam
  | custom
deriving DecidableEq, Repr

/-- The numeric and categorical inputs of the `calculate` closure
(source `Inputs` interface; UI-only fields such as `standardSize` and the
material preset name are omitted since `calculate` never reads them). -/
structure Inputs where
  beamLength : ℚ
  load : ℚ
  loadPosition : ℚ
  beamType : BeamType
  loadType : LoadType
  crossSection : BeamCrossSection
  sectionWidth : ℚ
  sectionHeight : ℚ
  flangeThickness : ℚ
  webThickness : ℚ
  modulusOfElasticity : ℚ
  momentOfInertia_cm4 : ℚ
  distanceToFiber_mm : ℚ
deriving DecidableEq, Repr

/-- One entry of the sampled diagram (source `diagramData` entries). -/
structure DiagramPoint where
  x : ℚ
  moment : ℚ
  shear : ℚ
  deflection : ℚ
deriving DecidableEq, Repr, Inhabited

/-- Reaction pair (source `reactions` object, in kN / kN-m output units). -/
structure Reactions where
  r1 : ℚ
  r2 : ℚ
deriving DecidableEq, Repr

/-- The assembled result (source `newResult` object). -/
structure BeamResult where
  maxMoment : ℚ
  maxShear : ℚ
  maxStress : ℚ
  maxDeflection : ℚ
  momentOfInertia : ℚ
  reactions : Reactions
  diagramData : List DiagramPoint
deriving DecidableEq, Repr

/-- JavaScript `Number(v.toFixed(2))`: round to the nearest hundredth. -/
def round2 (q : ℚ) : ℚ := (round (q * 100) : ℤ) / 100

/-- Cross-section resolution (source lines 350-376): second moment of area I
in m^4 and extreme-fiber distance c in m, or `none` when the checks of the
source reject the inputs. -/
def resolveSection (inp : Inputs) : Option (ℚ × ℚ) :=
  match inp.crossSection with
  | .custom =>
      if inp.momentOfInertia_cm4 ≤ 0 ∨ inp.distanceToFiber_mm ≤ 0 then none
      else some (inp.momentOfInertia_cm4 / 100000000, inp.distanceToFiber_mm / 1000)
  | .rectangular =>
      if inp.sectionWidth ≤ 0 ∨ inp.sectionHeight ≤ 0 then none
      else some (inp.sectionWidth / 1000 * (inp.sectionHeight / 1000) ^ 3 / 12,
                 inp.sectionHeight / 1000 / 2)
  | .ibeam =>
      if inp.sectionWidth ≤ 0 ∨ inp.sectionHeight ≤ 0 then none
      else some (inp.sectionWidth / 1000 * (inp.sectionHeight / 1000) ^ 3 / 12 -
                   (inp.sectionWidth / 1000 - inp.webThickness / 1000) *
                     (inp.sectionHeight / 1000 - 2 * (inp.flangeThickness / 1000)) ^ 3 / 12,
                 inp.sectionHeight / 1000 / 2)

/-- Internal bending moment (N-m) at position x, per variant
(source lines 420, 428, 434, 442). P is the internal load value in N
(equal to w in N/m for distributed loads); r1, r2 are the internal
reactions in N / N-m. -/
def momentAt (bt : BeamType) (lt : LoadType) (a P r1 r2 x : ℚ) : ℚ :=
  match bt, lt with
  | .simplySupported, .pointLoad => if x ≤ a then r1 * x else r1 * x - P * (x - a)
  | .simplySupported, .udl => r1 * x - P * x * x / 2
  | .cantilever, .pointLoad => if x < a then r2 + r1 * x else 0
  | .cantilever, .udl => r2 + r1 * x - P * x * x / 2

/-- Internal shear force (N) at position x, per variant
(source lines 421, 429, 435, 443). -/
def shearAt (bt : BeamType) (lt : LoadType) (a P r1 x : ℚ) : ℚ :=
  match bt, lt with
  | .simplySupported, .pointLoad => if x < a then r1 else r1 - P
  | .simplySupported, .udl => r1 - P * x
  | .cantilever, .pointLoad => if x < a then r1 else 0
  | .cantilever, .udl => r1 - P * x

/-- Deflection (m) at position x, per variant (source lines 422-426,
430, 436-440, 444). -/
def deflAt (bt : BeamType) (lt : LoadType) (L a P E I x : ℚ) : ℚ :=
  match bt, lt with
  | .simplySupported, .pointLoad =>
      if x ≤ a then
        P * (L - a) * x / (6 * E * I * L) * (L * L - (L - a) * (L - a) - x * x)
      else
        P * a * (L - x) / (6 * E * I * L) * (L * L - a * a - (L - x) * (L - x))
  | .simplySupported, .udl =>
      P * x / (24 * E * I) * (L * L * L - 2 * L * x * x + x * x * x)
  | .cantilever, .pointLoad =>
      if x ≤ a then P * x * x / (6 * E * I) * (3 * a - x)
      else P * a * a / (6 * E * I) * (3 * x - a)
  | .cantilever, .udl =>
      P * x * x / (24 * E * I) * (x * x + 6 * L * L - 4 * L * x)

/-- One diagram entry (source lines 447-452): x and the kN / kN-m converted
moment and shear are rounded to two decimals; deflection is converted to mm
without rounding. -/
def diagPoint (bt : BeamType) (lt : LoadType) (L a P E I r1 r2 x : ℚ) : DiagramPoint :=
  { x := round2 x
    moment := round2 (momentAt bt lt a P r1 r2 x / 1000)
    shear := round2 (shearAt bt lt a P r1 x / 1000)
    deflection := deflAt bt lt L a P E I x * 1000 }

/-- The 101-point sampling loop (source lines 412-453): positions
x_i = (L/100)*i for i = 0..100. -/
def sample (bt : BeamType) (lt : LoadType) (L a P E I r1 r2 : ℚ) : List DiagramPoint :=
  (List.range 101).map fun (i : ℕ) => diagPoint bt lt L a P E I r1 r2 (L / 100 * (i : ℚ))

/-- Result assembly (source lines 455-461): unit conversions back to display
units and the peak-deflection / peak-stress extraction. -/
def assemble (bt : BeamType) (lt : LoadType) (L a P E I c r1 r2 maxM maxS : ℚ) : BeamResult :=
  { maxMoment := maxM / 1000
    maxShear := maxS / 1000
    maxStress := |maxM| * c / I / 1000000
    maxDeflection := ((sample bt lt L a P E I r1 r2).map fun d => |d.deflection|).foldr max 0
    momentOfInertia := I
    reactions := ⟨r1 / 1000, r2 / 1000⟩
    diagramData := sample bt lt L a P E I r1 r2 }

/-- Per-variant reactions, analytic peaks and assembly (source lines
378-462): the four support-load branches, including the point-load
position check that the source performs inside the two point-load
branches. I and c are the already-resolved section properties. -/
def calcCase (inp : Inputs) (I c : ℚ) : Option BeamResult :=
  match inp.beamType, inp.loadType with
  | .simplySupported, .pointLoad =>
      if inp.loadPosition > inp.beamLength ∨ inp.loadPosition < 0 then none
      else
        some (assemble .simplySupported .pointLoad inp.beamLength inp.loadPosition
          (inp.load * 1000) (inp.modulusOfElasticity * 1000000000) I c
          (inp.load * 1000 * (inp.beamLength - inp.loadPosition) / inp.beamLength)
          (inp.load * 1000 * inp.loadPosition / inp.beamLength)
          (inp.load * 1000 * inp.loadPosition * (inp.beamLength - inp.loadPosition) /
            inp.beamLength)
          (max |inp.load * 1000 * (inp.beamLength - inp.loadPosition) / inp.beamLength|
            |inp.load * 1000 * inp.loadPosition / inp.beamLength|))
  | .simplySupported, .udl =>
      some (assemble .simplySupported .udl inp.beamLength inp.loadPosition
        (inp.load * 1000) (inp.modulusOfElasticity * 1000000000) I c
        (inp.load * 1000 * inp.beamLength / 2)
        (inp.load * 1000 * inp.beamLength / 2)
        (inp.load * 1000 * inp.beamLength * inp.beamLength / 8)
        (inp.load * 1000 * inp.beamLength / 2))
  | .cantilever, .pointLoad =>
      if inp.loadPosition > inp.beamLength ∨ inp.loadPosition < 0 then none
      else
        some (assemble .cantilever .pointLoad inp.beamLength inp.loadPosition
          (inp.load * 1000) (inp.modulusOfElasticity * 1000000000) I c
          (inp.load * 1000)
          (-(inp.load * 1000) * inp.loadPosition)
          (-(inp.load * 1000) * inp.loadPosition)
          (inp.load * 1000))
  | .cantilever, .udl =>
      some (assemble .cantilever .udl inp.beamLength inp.loadPosition
        (inp.load * 1000) (inp.modulusOfElasticity * 1000000000) I c
        (inp.load * 1000 * inp.beamLength)
        (-(inp.load * 1000 * inp.beamLength * inp.beamLength) / 2)
        (-(inp.load * 1000 * inp.beamLength * inp.beamLength) / 2)
        (inp.load * 1000 * inp.beamLength))

/-- The beam engine (source `calculate`, lines 330-462, result-producing
part): validation, unit conversion, cross-section resolution, per-variant
reactions and analytic peaks, sampling, and assembly. `none` models the
source paths that produce no result (setResult of null, or early return). -/
def calculate (inp : Inputs) : Option BeamResult :=
  if inp.beamLength ≤ 0 ∨ inp.load ≤ 0 ∨ inp.modulusOfElasticity ≤ 0 then none
  else (resolveSection inp).bind fun Ic => calcCase inp Ic.1 Ic.2

/-- Total applied load in kN: P for a point load, w*L for a UDL. -/
def totalLoad (inp : Inputs) : ℚ :=
  match inp.loadType with
  | .pointLoad => inp.load
  | .udl => inp.load * inp.beamLength

/-- The validation the source actually performs: positive span, load and
modulus; the cross-section resolves; and for point loads the position lies
in [0, L]. -/
def validInputs (inp : Inputs) : Prop :=
  (0 < inp.beamLength ∧ 0 < inp.load ∧ 0 < inp.modulusOfElasticity) ∧
    (resolveSection inp).isSome = true ∧
    (inp.loadType = .pointLoad → 0 ≤ inp.loadPosition ∧ inp.loadPosition ≤ inp.beamLength)

instance (inp : Inputs) : Decidable (validInputs inp) := by
  unfold validInputs
  infer_instance

/-! ### Basic lemmas about the embedding -/

theorem round2_mono {x y : ℚ} (h : x ≤ y) : round2 x ≤ round2 y := by
  unfold round2
  have h2 : round (x * 100) ≤ round (y * 100) := by
    rw [round_eq, round_eq]
    exact Int.floor_le_floor (by linarith)
  exact div_le_div_of_nonneg_right (by exact_mod_cast h2) (by norm_num) |>.trans_eq rfl

theorem round2_zero : round2 0 = 0 := by
  unfold round2
  norm_num

theorem assemble_diagramData (bt lt) (L a P E I c r1 r2 maxM maxS : ℚ) :
    (assemble bt lt L a P E I c r1 r2 maxM maxS).diagramData =
      sample bt lt L a P E I r1 r2 := rfl

theorem assemble_reactions (bt lt) (L a P E I c r1 r2 maxM maxS : ℚ) :
    (assemble bt lt L a P E I c r1 r2 maxM maxS).reactions = ⟨r1 / 1000, r2 / 1000⟩ := rfl

theorem assemble_maxMoment (bt lt) (L a P E I c r1 r2 maxM maxS : ℚ) :
    (assemble bt lt L a P E I c r1 r2 maxM maxS).maxMoment = maxM / 1000 := rfl

theorem assemble_maxStress (bt lt) (L a P E I c r1 r2 maxM maxS : ℚ) :
    (assemble bt lt L a P E I c r1 r2 maxM maxS).maxStress = |maxM| * c / I / 1000000 := rfl

theorem assemble_momentOfInertia (bt lt) (L a P E I c r1 r2 maxM maxS : ℚ) :
    (assemble bt lt L a P E I c r1 r2 maxM maxS).momentOfInertia = I := rfl

theorem sample_length (bt lt) (L a P E I r1 r2 : ℚ) :
    (sample bt lt L a P E I r1 r2).length = 101 := by
  unfold sample
  rw [List.length_map, List.length_range]

theorem sample_getD (bt lt) (L a P E I r1 r2 : ℚ) (i : ℕ) (h : i < 101) :
    (sample bt lt L a P E I r1 r2).getD i default =
      diagPoint bt lt L a P E I r1 r2 (L / 100 * (i : ℚ)) := by
  unfold sample
  rw [List.getD_eq_getElem?_getD, List.getElem?_map, List.getElem?_range h]
  rfl

theorem diagPoint_x (bt lt) (L a P E I r1 r2 x : ℚ) :
    (diagPoint bt lt L a P E I r1 r2 x).x = round2 x := rfl

theorem diagPoint_moment (bt lt) (L a P E I r1 r2 x : ℚ) :
    (diagPoint bt lt L a P E I r1 r2 x).moment =
      round2 (momentAt bt lt a P r1 r2 x / 1000) := rfl

theorem diagPoint_shear (bt lt) (L a P E I r1 r2 x : ℚ) :
    (diagPoint bt lt L a P E I r1 r2 x).shear =
      round2 (shearAt bt lt a P r1 x / 1000) := rfl

/-! ### Evaluation lemmas for `calculate`, one per support-load variant -/

theorem calculate_none_of_load (inp : Inputs)
    (h : inp.beamLength ≤ 0 ∨ inp.load ≤ 0 ∨ inp.modulusOfElasticity ≤ 0) :
    calculate inp = none := by
  unfold calculate
  rw [if_pos h]

theorem calculate_none_of_section (inp : Inputs) (h : resolveSection inp = none) :
    calculate inp = none := by
  unfold calculate
  by_cases hc : inp.beamLength ≤ 0 ∨ inp.load ≤ 0 ∨ inp.modulusOfElasticity ≤ 0
  · rw [if_pos hc]
  · rw [if_neg hc, h]
    rfl

theorem calcCase_none_of_position (inp : Inputs) (I c : ℚ)
    (hlt : inp.loadType = .pointLoad)
    (h : inp.loadPosition > inp.beamLength ∨ inp.loadPosition < 0) :
    calcCase inp I c = none := by
  unfold calcCase
  cases hbt : inp.beamType <;> rw [hlt] <;> exact if_pos h

theorem calculate_none_of_position (inp : Inputs) (hlt : inp.loadType = .pointLoad)
    (h : inp.loadPosition > inp.beamLength ∨ inp.loadPosition < 0) :
    calculate inp = none := by
  unfold calculate
  by_cases hc : inp.beamLength ≤ 0 ∨ inp.load ≤ 0 ∨ inp.modulusOfElasticity ≤ 0
  · rw [if_pos hc]
  · rw [if_neg hc]
    cases hres : resolveSection inp with
    | none => rfl
    | some s =>
        show calcCase inp s.1 s.2 = none
        exact calcCase_none_of_position inp s.1 s.2 hlt h

theorem calculate_eq_ss_point (inp : Inputs) (I c : ℚ)
    (hL : 0 < inp.beamLength) (hP : 0 < inp.load) (hE : 0 < inp.modulusOfElasticity)
    (hbt : inp.beamType = .simplySupported) (hlt : inp.loadType = .pointLoad)
    (hres : resolveSection inp = some (I, c))
    (ha0 : 0 ≤ inp.loadPosition) (haL : inp.loadPosition ≤ inp.beamLength) :
    calculate inp =
      some (assemble .simplySupported .pointLoad inp.beamLength inp.loadPosition
        (inp.load * 1000) (inp.modulusOfElasticity * 1000000000) I c
        (inp.load * 1000 * (inp.beamLength - inp.loadPosition) / inp.beamLength)
        (inp.load * 1000 * inp.loadPosition / inp.beamLength)
        (inp.load * 1000 * inp.loadPosition * (inp.beamLength - inp.loadPosition) /
          inp.beamLength)
        (max |inp.load * 1000 * (inp.beamLength - inp.loadPosition) / inp.beamLength|
          |inp.load * 1000 * inp.loadPosition / inp.beamLength|)) := by
  unfold calculate
  rw [if_neg (by push_neg; exact ⟨hL, hP, hE⟩), hres]
  show calcCase inp I c = _
  unfold calcCase
  rw [hbt, hlt]
  exact if_neg (by push_neg; exact ⟨haL, ha0⟩)

theorem calculate_eq_ss_udl (inp : Inputs) (I c : ℚ)
    (hL : 0 < inp.beamLength) (hP : 0 < inp.load) (hE : 0 < inp.modulusOfElasticity)
    (hbt : inp.beamType = .simplySupported) (hlt : inp.loadType = .udl)
    (hres : resolveSection inp = some (I, c)) :
    calculate inp =
      some (assemble .simplySupported .udl inp.beamLength inp.loadPosition
        (inp.load * 1000) (inp.modulusOfElasticity * 1000000000) I c
        (inp.load * 1000 * inp.beamLength / 2)
        (inp.load * 1000 * inp.beamLength / 2)
        (inp.load * 1000 * inp.beamLength * inp.beamLength / 8)
        (inp.load * 1000 * inp.beamLength / 2)) := by
  unfold calculate
  rw [if_neg (by push_neg; exact ⟨hL, hP, hE⟩), hres]
  show calcCase inp I c = _
  unfold calcCase
  rw [hbt, hlt]

theorem calculate_eq_cant_point (inp : Inputs) (I c : ℚ)
    (hL : 0 < inp.beamLength) (hP : 0 < inp.load) (hE : 0 < inp.modulusOfElasticity)
    (hbt : inp.beamType = .cantilever) (hlt : inp.loadType = .pointLoad)
    (hres : resolveSection inp = some (I, c))
    (ha0 : 0 ≤ inp.loadPosition) (haL : inp.loadPosition ≤ inp.beamLength) :
    calculate inp =
      some (assemble .cantilever .pointLoad inp.beamLength inp.loadPosition
        (inp.load * 1000) (inp.modulusOfElasticity * 1000000000) I c
        (inp.load * 1000)
        (-(inp.load * 1000) * inp.loadPosition)
        (-(inp.load * 1000) * inp.loadPosition)
        (inp.load * 1000)) := by
  unfold calculate
  rw [if_neg (by push_neg; exact ⟨hL, hP, hE⟩), hres]
  show calcCase inp I c = _
  unfold calcCase
  rw [hbt, hlt]
  exact if_neg (by push_neg; exact ⟨haL, ha0⟩)

theorem calculate_eq_cant_udl (inp : Inputs) (I c : ℚ)
    (hL : 0 < inp.beamLength) (hP : 0 < inp.load) (hE : 0 < inp.modulusOfElasticity)
    (hbt : inp.beamType = .cantilever) (hlt : inp.loadType = .udl)
    (hres : resolveSection inp = some (I, c)) :
    calculate inp =
      some (assemble .cantilever .udl inp.beamLength inp.loadPosition
        (inp.load * 1000) (inp.modulusOfElasticity * 1000000000) I c
        (inp.load * 1000 * inp.beamLength)
        (-(inp.load * 1000 * inp.beamLength * inp.beamLength) / 2)
        (-(inp.load * 1000 * inp.beamLength * inp.beamLength) / 2)
        (inp.load * 1000 * inp.beamLength)) := by
  unfold calculate
  rw [if_neg (by push_neg; exact ⟨hL, hP, hE⟩), hres]
  show calcCase inp I c = _
  unfold calcCase
  rw [hbt, hlt]

theorem calculate_isSome_of_valid (inp : Inputs) (hv : validInputs inp) :
    (calculate inp).isSome = true := by
  obtain ⟨⟨hL, hP, hE⟩, hsec, hpos⟩ := hv
  obtain ⟨s, hres⟩ := Option.isSome_iff_exists.mp hsec
  obtain ⟨I, c⟩ := s
  cases hbt : inp.beamType <;> cases hlt : inp.loadType
  · obtain ⟨ha0, haL⟩ := hpos hlt
    rw [calculate_eq_ss_point inp I c hL hP hE hbt hlt hres ha0 haL]
    rfl
  · rw [calculate_eq_ss_udl inp I c hL hP hE hbt hlt hres]
    rfl
  · obtain ⟨ha0, haL⟩ := hpos hlt
    rw [calculate_eq_cant_point inp I c hL hP hE hbt hlt hres ha0 haL]
    rfl
  · rw [calculate_eq_cant_udl inp I c hL hP hE hbt hlt hres]
    rfl

/-! ### Concrete input vectors used by witnesses and counterexamples -/

/-- Scenario A of the spec: L = 10 m, P = 100 kN point load at a = 5 m,
simply supported, rectangular 150 x 300 mm, E = 200 GPa. -/
def specPointSS : Inputs :=
  { beamLength := 10, load := 100, loadPosition := 5,
    beamType := .simplySupported, loadType := .pointLoad, crossSection := .rectangular,
    sectionWidth := 150, sectionHeight := 300, flangeThickness := 15, webThickness := 10,
    modulusOfElasticity := 200, momentOfInertia_cm4 := 8000, distanceToFiber_mm := 150 }

/-- Scenario B of the spec: L = 10 m, w = 100 kN/m UDL, simply supported. -/
def specUdlSS : Inputs :=
  { specPointSS with loadType := .udl }

/-- Scenario C of the spec: L = 5 m, P = 50 kN at the tip a = 5 m, cantilever. -/
def specCantPoint : Inputs :=
  { specPointSS with
    beamLength := 5
    load := 50
    loadPosition := 5
    beamType := .cantilever }

/-- A cantilever UDL configuration: L = 10 m, w = 100 kN/m. -/
def specCantUdl : Inputs :=
  { specPointSS with beamType := .cantilever, loadType := .udl }

/-- A well-formed I-beam configuration (150 x 300 mm, tf = 15, tw = 10). -/
def specIBeam : Inputs :=
  { specPointSS with crossSection := .ibeam }

/-- An I-beam whose web is thicker than its flange width (tw = 20 > b = 10):
InvalidGeometry per the spec taxonomy, yet unchecked by the source. -/
def specBadTw : Inputs :=
  { specPointSS with crossSection := .ibeam, sectionWidth := 10, webThickness := 20 }

/-- An I-beam whose flanges overlap (2 tf = 400 > h = 300): InvalidGeometry
per the spec taxonomy, yet unchecked by the source. -/
def specBadTf : Inputs :=
  { specPointSS with crossSection := .ibeam, flangeThickness := 200 }

/-- A short span L = 0.1 m, point load at a = 0.05 m: the two-decimal
rounding of diagram x positions collapses distinct sample positions. -/
def specTiny : Inputs :=
  { specPointSS with beamLength := 1/10, loadPosition := 1/20 }

/-- Scenario A with the point load moved to the left support a = 0. -/
def specPoint0 : Inputs :=
  { specPointSS with loadPosition := 0 }

/-! ### Claim C1 -/

/-- C1 (amended): the engine returns no result exactly when one of the
validations the source performs fails: non-positive span, load magnitude or
elastic modulus; a cross-section rejected by the resolver (non-positive
custom I or c, non-positive width or height); or a point-load position
outside [0, L]. On every spec passing those checks a result is produced;
I-beam flange/web degeneracies are not among the checks. -/
theorem calculate_none_iff_invalid (inp : Inputs) :
    calculate inp = none ↔ ¬ validInputs inp := by
  constructor
  · intro h hv
    have hs := calculate_isSome_of_valid inp hv
    rw [h] at hs
    simp at hs
  · intro hv
    by_cases hload : 0 < inp.beamLength ∧ 0 < inp.load ∧ 0 < inp.modulusOfElasticity
    · by_cases hsec : (resolveSection inp).isSome = true
      · have hptF : ¬(inp.loadType = .pointLoad →
            0 ≤ inp.loadPosition ∧ inp.loadPosition ≤ inp.beamLength) := by
          intro himp
          exact hv ⟨hload, hsec, himp⟩
        push_neg at hptF
        obtain ⟨hlt, hrange⟩ := hptF
        have hout : inp.loadPosition > inp.beamLength ∨ inp.loadPosition < 0 := by
          by_contra hc
          push_neg at hc
          rcases hrange hc.2 with h3
          exact absurd hc.1 (not_le.mpr h3)
        exact calculate_none_of_position inp hlt hout
      · have hnone : resolveSection inp = none :=
          Option.not_isSome_iff_eq_none.mp hsec
        exact calculate_none_of_section inp hnone
    · have hout : inp.beamLength ≤ 0 ∨ inp.load ≤ 0 ∨ inp.modulusOfElasticity ≤ 0 := by
        by_contra hc
        push_neg at hc
        exact hload ⟨hc.1, hc.2.1, hc.2.2⟩
      exact calculate_none_of_load inp hout

/-- C1 counterexample: specBadTw violates the spec precondition
webThickness < width (an InvalidGeometry case of the spec taxonomy), yet
the engine runs the full load-case evaluation and returns a result instead
of a typed validation failure. -/
theorem calculate_accepts_bad_web :
    specBadTw.sectionWidth ≤ specBadTw.webThickness ∧
      (calculate specBadTw).isSome = true := by
  constructor
  · norm_num [specBadTw, specPointSS]
  · have hsec : (resolveSection specBadTw).isSome = true := by
      norm_num [resolveSection, specBadTw, specPointSS]
    obtain ⟨⟨I, c⟩, hres⟩ := Option.isSome_iff_exists.mp hsec
    rw [calculate_eq_ss_point specBadTw I c
      (by norm_num [specBadTw, specPointSS]) (by norm_num [specBadTw, specPointSS])
      (by norm_num [specBadTw, specPointSS]) rfl rfl hres
      (by norm_num [specBadTw, specPointSS]) (by norm_num [specBadTw, specPointSS])]
    rfl

/-! ### Claim C2 -/

/-- C2 (amended): resolving an I-beam cross-section fails only when
width ≤ 0 or height ≤ 0 (then no BeamResult is produced at all); for every
positive width and height - including degenerate tw ≥ b or 2 tf ≥ h - it
yields I = I(full rectangle) - I(void rectangle) and c = h/2. -/
theorem ibeam_resolution (inp : Inputs) (hcs : inp.crossSection = .ibeam) :
    (inp.sectionWidth ≤ 0 ∨ inp.sectionHeight ≤ 0 →
        resolveSection inp = none ∧ calculate inp = none) ∧
    (0 < inp.sectionWidth → 0 < inp.sectionHeight →
        resolveSection inp =
          some (inp.sectionWidth / 1000 * (inp.sectionHeight / 1000) ^ 3 / 12 -
              (inp.sectionWidth / 1000 - inp.webThickness / 1000) *
                (inp.sectionHeight / 1000 - 2 * (inp.flangeThickness / 1000)) ^ 3 / 12,
            inp.sectionHeight / 1000 / 2)) := by
  constructor
  · intro h
    have hnone : resolveSection inp = none := by
      unfold resolveSection
      rw [hcs]
      exact if_pos h
    exact ⟨hnone, calculate_none_of_section inp hnone⟩
  · intro h1 h2
    unfold resolveSection
    rw [hcs]
    exact if_neg (by push_neg; exact ⟨h1, h2⟩)

/-- Witness for C2: the well-formed 150 x 300 I-beam resolves to the
subtracted second moment of area 21573/200000000 m^4 and c = 0.15 m. -/
theorem ibeam_resolution_witness :
    specIBeam.crossSection = .ibeam ∧
      resolveSection specIBeam = some (21573/200000000, 3/20) := by
  refine ⟨rfl, ?_⟩
  have h := (ibeam_resolution specIBeam rfl).2
    (by norm_num [specIBeam, specPointSS]) (by norm_num [specIBeam, specPointSS])
  rw [h]
  norm_num [specIBeam, specPointSS]

/-- C2 counterexample: specBadTf has 2 tf = 400 ≥ h = 300, which the claim
says must fail with InvalidGeometry, yet the engine produces a result. -/
theorem calculate_accepts_bad_flange :
    specBadTf.sectionHeight ≤ 2 * specBadTf.flangeThickness ∧
      (calculate specBadTf).isSome = true := by
  constructor
  · norm_num [specBadTf, specPointSS]
  · have hsec : (resolveSection specBadTf).isSome = true := by
      norm_num [resolveSection, specBadTf, specPointSS]
    obtain ⟨⟨I, c⟩, hres⟩ := Option.isSome_iff_exists.mp hsec
    rw [calculate_eq_ss_point specBadTf I c
      (by norm_num [specBadTf, specPointSS]) (by norm_num [specBadTf, specPointSS])
      (by norm_num [specBadTf, specPointSS]) rfl rfl hres
      (by norm_num [specBadTf, specPointSS]) (by norm_num [specBadTf, specPointSS])]
    rfl

/-! ### Claim C3 -/

theorem calculate_some_shape (inp : Inputs) (hv : validInputs inp) :
    ∃ r, calculate inp = some r ∧ ∃ I r1 r2,
      r.diagramData = sample inp.beamType inp.loadType inp.beamLength inp.loadPosition
        (inp.load * 1000) (inp.modulusOfElasticity * 1000000000) I r1 r2 := by
  obtain ⟨⟨hL, hP, hE⟩, hsec, hpos⟩ := hv
  obtain ⟨⟨I, c⟩, hres⟩ := Option.isSome_iff_exists.mp hsec
  cases hbt : inp.beamType <;> cases hlt : inp.loadType
  · obtain ⟨ha0, haL⟩ := hpos hlt
    exact ⟨_, calculate_eq_ss_point inp I c hL hP hE hbt hlt hres ha0 haL, I, _, _, rfl⟩
  · exact ⟨_, calculate_eq_ss_udl inp I c hL hP hE hbt hlt hres, I, _, _, rfl⟩
  · obtain ⟨ha0, haL⟩ := hpos hlt
    exact ⟨_, calculate_eq_cant_point inp I c hL hP hE hbt hlt hres ha0 haL, I, _, _, rfl⟩
  · exact ⟨_, calculate_eq_cant_udl inp I c hL hP hE hbt hlt hres, I, _, _, rfl⟩

/-- C3 (amended): for every valid BeamSpec the diagram has exactly 101
points; the i-th point's stored x equals (L/100)*i rounded to two decimal
places, so the x values are nondecreasing (not always strictly ascending)
and run from 0 to L rounded to two decimals. -/
theorem diagram_shape (inp : Inputs) (hv : validInputs inp) :
    ∃ r, calculate inp = some r ∧
      r.diagramData.length = 101 ∧
      (∀ i : ℕ, i < 101 →
        (r.diagramData.getD i default).x = round2 (inp.beamLength / 100 * (i : ℚ))) ∧
      (∀ i j : ℕ, i ≤ j → j < 101 →
        (r.diagramData.getD i default).x ≤ (r.diagramData.getD j default).x) ∧
      (r.diagramData.getD 0 default).x = 0 ∧
      (r.diagramData.getD 100 default).x = round2 inp.beamLength := by
  have hL : 0 < inp.beamLength := hv.1.1
  obtain ⟨r, hr, I, r1, r2, hd⟩ := calculate_some_shape inp hv
  refine ⟨r, hr, ?_, ?_, ?_, ?_, ?_⟩
  · rw [hd, sample_length]
  · intro i hi
    rw [hd, sample_getD _ _ _ _ _ _ _ _ _ i hi, diagPoint_x]
  · intro i j hij hj
    rw [hd, sample_getD _ _ _ _ _ _ _ _ _ i (lt_of_le_of_lt hij hj),
      sample_getD _ _ _ _ _ _ _ _ _ j hj, diagPoint_x, diagPoint_x]
    apply round2_mono
    apply mul_le_mul_of_nonneg_left _ (by positivity)
    exact_mod_cast hij
  · rw [hd, sample_getD _ _ _ _ _ _ _ _ _ 0 (by norm_num), diagPoint_x,
      show inp.beamLength / 100 * ((0 : ℕ) : ℚ) = 0 by norm_num, round2_zero]
  · rw [hd, sample_getD _ _ _ _ _ _ _ _ _ 100 (by norm_num), diagPoint_x,
      show inp.beamLength / 100 * ((100 : ℕ) : ℚ) = inp.beamLength by push_cast; ring]

/-- Witness for C3: the shape invariant holds at scenario A. -/
theorem diagram_shape_witness :
    validInputs specPointSS ∧
      (∃ r, calculate specPointSS = some r ∧
        r.diagramData.length = 101 ∧
        (∀ i : ℕ, i < 101 →
          (r.diagramData.getD i default).x =
            round2 (specPointSS.beamLength / 100 * (i : ℚ))) ∧
        (∀ i j : ℕ, i ≤ j → j < 101 →
          (r.diagramData.getD i default).x ≤ (r.diagramData.getD j default).x) ∧
        (r.diagramData.getD 0 default).x = 0 ∧
        (r.diagramData.getD 100 default).x = round2 specPointSS.beamLength) := by
  have hv : validInputs specPointSS := by
    refine ⟨by norm_num [specPointSS], ?_, by norm_num [specPointSS]⟩
    norm_num [resolveSection, specPointSS]
  exact ⟨hv, diagram_shape specPointSS hv⟩

/-- C3 counterexample: for the valid spec with L = 0.1 m the stored
positions of the first two diagram points are both 0 (two-decimal
rounding), so the i-th x is not (L/100)*i and the sequence is not strictly
ascending. -/
theorem diagram_rounding_cex :
    ((calculate specTiny).map fun r =>
        ((r.diagramData.getD 0 default).x, (r.diagramData.getD 1 default).x)) =
      some (0, 0) ∧
    specTiny.beamLength / 100 * (1 : ℚ) ≠ 0 := by
  constructor
  · have hsec : (resolveSection specTiny).isSome = true := by
      norm_num [resolveSection, specTiny, specPointSS]
    obtain ⟨⟨I, c⟩, hres⟩ := Option.isSome_iff_exists.mp hsec
    rw [calculate_eq_ss_point specTiny I c (by norm_num [specTiny, specPointSS])
      (by norm_num [specTiny, specPointSS]) (by norm_num [specTiny, specPointSS])
      rfl rfl hres (by norm_num [specTiny, specPointSS])
      (by norm_num [specTiny, specPointSS]), Option.map_some', assemble_diagramData,
      sample_getD _ _ _ _ _ _ _ _ _ 0 (by norm_num),
      sample_getD _ _ _ _ _ _ _ _ _ 1 (by norm_num), diagPoint_x, diagPoint_x]
    norm_num [specTiny, specPointSS, round2, round_eq]
  · norm_num [specTiny, specPointSS]

/-! ### Claim C4 -/

/-- C4: for every valid simply-supported spec the returned reactions sum
exactly to the total applied load (P for a point load, w*L for a UDL), and
for every valid cantilever spec r1 equals the total applied load; exact
rational equality, hence in particular within relative tolerance 1e-9. -/
theorem reaction_equilibrium (inp : Inputs) (I c : ℚ)
    (hL : 0 < inp.beamLength) (hP : 0 < inp.load) (hE : 0 < inp.modulusOfElasticity)
    (hres : resolveSection inp = some (I, c))
    (hpos : inp.loadType = .pointLoad →
      0 ≤ inp.loadPosition ∧ inp.loadPosition ≤ inp.beamLength) :
    ∃ r, calculate inp = some r ∧
      (inp.beamType = .simplySupported →
        r.reactions.r1 + r.reactions.r2 = totalLoad inp) ∧
      (inp.beamType = .cantilever → r.reactions.r1 = totalLoad inp) := by
  have hL0 : inp.beamLength ≠ 0 := ne_of_gt hL
  cases hbt : inp.beamType <;> cases hlt : inp.loadType
  · obtain ⟨ha0, haL⟩ := hpos hlt
    refine ⟨_, calculate_eq_ss_point inp I c hL hP hE hbt hlt hres ha0 haL,
      fun _ => ?_, fun h => nomatch h⟩
    show inp.load * 1000 * (inp.beamLength - inp.loadPosition) / inp.beamLength / 1000 +
        inp.load * 1000 * inp.loadPosition / inp.beamLength / 1000 = totalLoad inp
    unfold totalLoad
    rw [hlt]
    field_simp
    ring
  · refine ⟨_, calculate_eq_ss_udl inp I c hL hP hE hbt hlt hres,
      fun _ => ?_, fun h => nomatch h⟩
    show inp.load * 1000 * inp.beamLength / 2 / 1000 +
        inp.load * 1000 * inp.beamLength / 2 / 1000 = totalLoad inp
    unfold totalLoad
    rw [hlt]
    ring
  · obtain ⟨ha0, haL⟩ := hpos hlt
    refine ⟨_, calculate_eq_cant_point inp I c hL hP hE hbt hlt hres ha0 haL,
      fun h => by simp at h, fun _ => ?_⟩
    show inp.load * 1000 / 1000 = totalLoad inp
    unfold totalLoad
    rw [hlt]
    ring
  · refine ⟨_, calculate_eq_cant_udl inp I c hL hP hE hbt hlt hres,
      fun h => by simp at h, fun _ => ?_⟩
    show inp.load * 1000 * inp.beamLength / 1000 = totalLoad inp
    unfold totalLoad
    rw [hlt]
    ring

/-- Witness for C4: scenario A satisfies the hypotheses, and its reactions
sum to the 100 kN load. -/
theorem reaction_equilibrium_witness :
    ((0:ℚ) < specPointSS.beamLength ∧ (0:ℚ) < specPointSS.load ∧
      (0:ℚ) < specPointSS.modulusOfElasticity) ∧
    resolveSection specPointSS = some (27/80000, 3/20) ∧
    (∃ r, calculate specPointSS = some r ∧
      (specPointSS.beamType = .simplySupported →
        r.reactions.r1 + r.reactions.r2 = totalLoad specPointSS) ∧
      (specPointSS.beamType = .cantilever → r.reactions.r1 = totalLoad specPointSS)) := by
  refine ⟨by norm_num [specPointSS], by norm_num [resolveSection, specPointSS], ?_⟩
  exact reaction_equilibrium specPointSS (27/80000) (3/20) (by norm_num [specPointSS])
    (by norm_num [specPointSS]) (by norm_num [specPointSS])
    (by norm_num [resolveSection, specPointSS]) (fun _ => by norm_num [specPointSS])

/-! ### Claim C5 -/

/-- C5: every valid simply-supported UDL spec has reactions exactly
r1 = r2 = w*L/2 and maxMoment = w*L^2/8, and the diagram moment attains its
maximum at the midspan sample point x = L/2. -/
theorem ss_udl_symmetric (inp : Inputs) (I c : ℚ)
    (hL : 0 < inp.beamLength) (hP : 0 < inp.load) (hE : 0 < inp.modulusOfElasticity)
    (hbt : inp.beamType = .simplySupported) (hlt : inp.loadType = .udl)
    (hres : resolveSection inp = some (I, c)) :
    ∃ r, calculate inp = some r ∧
      r.reactions.r1 = inp.load * inp.beamLength / 2 ∧
      r.reactions.r2 = inp.load * inp.beamLength / 2 ∧
      r.maxMoment = inp.load * inp.beamLength * inp.beamLength / 8 ∧
      (r.diagramData.getD 50 default).x = round2 (inp.beamLength / 2) ∧
      (∀ p ∈ r.diagramData, p.moment ≤ (r.diagramData.getD 50 default).moment) := by
  refine ⟨_, calculate_eq_ss_udl inp I c hL hP hE hbt hlt hres, ?_, ?_, ?_, ?_, ?_⟩
  · show inp.load * 1000 * inp.beamLength / 2 / 1000 = inp.load * inp.beamLength / 2
    ring
  · show inp.load * 1000 * inp.beamLength / 2 / 1000 = inp.load * inp.beamLength / 2
    ring
  · show inp.load * 1000 * inp.beamLength * inp.beamLength / 8 / 1000 =
      inp.load * inp.beamLength * inp.beamLength / 8
    ring
  · rw [assemble_diagramData, sample_getD _ _ _ _ _ _ _ _ _ 50 (by norm_num), diagPoint_x,
      show inp.beamLength / 100 * ((50 : ℕ) : ℚ) = inp.beamLength / 2 by push_cast; ring]
  · intro p hp
    rw [assemble_diagramData] at hp
    unfold sample at hp
    rw [List.mem_map] at hp
    obtain ⟨i, hi, hpi⟩ := hp
    rw [List.mem_range] at hi
    subst hpi
    rw [assemble_diagramData, sample_getD _ _ _ _ _ _ _ _ _ 50 (by norm_num),
      diagPoint_moment, diagPoint_moment]
    apply round2_mono
    apply div_le_div_of_nonneg_right _ (by norm_num)
    simp only [momentAt]
    rw [show inp.beamLength / 100 * ((50 : ℕ) : ℚ) = inp.beamLength / 2 by push_cast; ring]
    have hP1000 : (0:ℚ) ≤ inp.load * 1000 := by positivity
    nlinarith [sq_nonneg (inp.beamLength / 2 - inp.beamLength / 100 * (i : ℚ)),
      mul_nonneg hP1000 (sq_nonneg (inp.beamLength / 2 - inp.beamLength / 100 * (i : ℚ)))]

/-- Witness for C5: scenario B (L = 10 m, w = 100 kN/m) gives
r1 = r2 = 500 kN and maxMoment = 1250 kN-m attained at the x = 5 m sample. -/
theorem ss_udl_symmetric_witness :
    specUdlSS.beamType = .simplySupported ∧ specUdlSS.loadType = .udl ∧
      (∃ r, calculate specUdlSS = some r ∧ r.reactions.r1 = 500 ∧
        r.reactions.r2 = 500 ∧ r.maxMoment = 1250 ∧
        (r.diagramData.getD 50 default).x = 5 ∧
        (∀ p ∈ r.diagramData, p.moment ≤ (r.diagramData.getD 50 default).moment)) := by
  refine ⟨rfl, rfl, ?_⟩
  obtain ⟨r, hr, h1, h2, h3, h4, h5⟩ := ss_udl_symmetric specUdlSS (27/80000) (3/20)
    (by norm_num [specUdlSS, specPointSS]) (by norm_num [specUdlSS, specPointSS])
    (by norm_num [specUdlSS, specPointSS]) rfl rfl
    (by norm_num [resolveSection, specUdlSS, specPointSS])
  refine ⟨r, hr, ?_, ?_, ?_, ?_, h5⟩
  · rw [h1]
    norm_num [specUdlSS, specPointSS]
  · rw [h2]
    norm_num [specUdlSS, specPointSS]
  · rw [h3]
    norm_num [specUdlSS, specPointSS]
  · rw [h4]
    norm_num [specUdlSS, specPointSS, round2, round_eq]

/-! ### Claim C6 -/

/-- C6: for every valid cantilever point-load spec the returned reactions
are r1 = P (kN) and r2 = -P*a (kN-m); the internal moment function is
r2 + r1*x for x < a and exactly 0 for x ≥ a, the internal shear function is
r1 for x < a and exactly 0 for x ≥ a (also for interior loads a < L), and
every diagram entry carries the two-decimal-rounded kN conversion of those
functions at its sample position. -/
theorem cantilever_point_profile (inp : Inputs) (I c : ℚ)
    (hL : 0 < inp.beamLength) (hP : 0 < inp.load) (hE : 0 < inp.modulusOfElasticity)
    (hbt : inp.beamType = .cantilever) (hlt : inp.loadType = .pointLoad)
    (hres : resolveSection inp = some (I, c))
    (ha0 : 0 ≤ inp.loadPosition) (haL : inp.loadPosition ≤ inp.beamLength) :
    ∃ r, calculate inp = some r ∧
      r.reactions.r1 = inp.load ∧
      r.reactions.r2 = -(inp.load * inp.loadPosition) ∧
      (∀ x : ℚ, x < inp.loadPosition →
        momentAt .cantilever .pointLoad inp.loadPosition (inp.load * 1000)
            (inp.load * 1000) (-(inp.load * 1000) * inp.loadPosition) x =
          -(inp.load * 1000) * inp.loadPosition + inp.load * 1000 * x ∧
        shearAt .cantilever .pointLoad inp.loadPosition (inp.load * 1000)
            (inp.load * 1000) x = inp.load * 1000) ∧
      (∀ x : ℚ, inp.loadPosition ≤ x →
        momentAt .cantilever .pointLoad inp.loadPosition (inp.load * 1000)
            (inp.load * 1000) (-(inp.load * 1000) * inp.loadPosition) x = 0 ∧
        shearAt .cantilever .pointLoad inp.loadPosition (inp.load * 1000)
            (inp.load * 1000) x = 0) ∧
      (∀ i : ℕ, i < 101 →
        (r.diagramData.getD i default).moment =
          round2 (momentAt .cantilever .pointLoad inp.loadPosition (inp.load * 1000)
            (inp.load * 1000) (-(inp.load * 1000) * inp.loadPosition)
            (inp.beamLength / 100 * (i : ℚ)) / 1000) ∧
        (r.diagramData.getD i default).shear =
          round2 (shearAt .cantilever .pointLoad inp.loadPosition (inp.load * 1000)
            (inp.load * 1000) (inp.beamLength / 100 * (i : ℚ)) / 1000)) := by
  refine ⟨_, calculate_eq_cant_point inp I c hL hP hE hbt hlt hres ha0 haL,
    ?_, ?_, ?_, ?_, ?_⟩
  · show inp.load * 1000 / 1000 = inp.load
    ring
  · show -(inp.load * 1000) * inp.loadPosition / 1000 = -(inp.load * inp.loadPosition)
    ring
  · intro x hx
    constructor
    · simp only [momentAt]
      rw [if_pos hx]
    · simp only [shearAt]
      rw [if_pos hx]
  · intro x hx
    constructor
    · simp only [momentAt]
      rw [if_neg (not_lt.mpr hx)]
    · simp only [shearAt]
      rw [if_neg (not_lt.mpr hx)]
  · intro i hi
    rw [assemble_diagramData, sample_getD _ _ _ _ _ _ _ _ _ i hi]
    exact ⟨rfl, rfl⟩

/-- Witness for C6: scenario C (L = 5 m, P = 50 kN at the tip a = 5 m)
gives r1 = 50 kN and r2 = -250 kN-m. -/
theorem cantilever_point_profile_witness :
    specCantPoint.beamType = .cantilever ∧ specCantPoint.loadType = .pointLoad ∧
      (0:ℚ) ≤ specCantPoint.loadPosition ∧
      specCantPoint.loadPosition ≤ specCantPoint.beamLength ∧
      (∃ r, calculate specCantPoint = some r ∧ r.reactions.r1 = 50 ∧
        r.reactions.r2 = -250) := by
  refine ⟨rfl, rfl, by norm_num [specCantPoint, specPointSS],
    by norm_num [specCantPoint, specPointSS], ?_⟩
  obtain ⟨r, hr, h1, h2, _, _, _⟩ := cantilever_point_profile specCantPoint
    (27/80000) (3/20) (by norm_num [specCantPoint, specPointSS])
    (by norm_num [specCantPoint, specPointSS]) (by norm_num [specCantPoint, specPointSS])
    rfl rfl (by norm_num [resolveSection, specCantPoint, specPointSS])
    (by norm_num [specCantPoint, specPointSS]) (by norm_num [specCantPoint, specPointSS])
  refine ⟨r, hr, ?_, ?_⟩
  · rw [h1]
    norm_num [specCantPoint, specPointSS]
  · rw [h2]
    norm_num [specCantPoint, specPointSS]

/-! ### Claim C7 -/

theorem stress_abs_helper (m c I : ℚ) :
    |m / 1000 * 1000| * c / I / 1000000 = |m| * c / I / 1000000 := by
  rw [div_mul_cancel₀ _ (by norm_num : (1000:ℚ) ≠ 0)]

theorem calc_stress_core (inp : Inputs) (I c : ℚ)
    (hL : 0 < inp.beamLength) (hP : 0 < inp.load) (hE : 0 < inp.modulusOfElasticity)
    (hres : resolveSection inp = some (I, c))
    (hpos : inp.loadType = .pointLoad →
      0 ≤ inp.loadPosition ∧ inp.loadPosition ≤ inp.beamLength) :
    ∃ r, calculate inp = some r ∧ r.momentOfInertia = I ∧
      r.maxStress = |r.maxMoment * 1000| * c / I / 1000000 := by
  cases hbt : inp.beamType <;> cases hlt : inp.loadType
  · obtain ⟨ha0, haL⟩ := hpos hlt
    refine ⟨_, calculate_eq_ss_point inp I c hL hP hE hbt hlt hres ha0 haL, rfl, ?_⟩
    rw [assemble_maxStress, assemble_maxMoment, stress_abs_helper]
  · refine ⟨_, calculate_eq_ss_udl inp I c hL hP hE hbt hlt hres, rfl, ?_⟩
    rw [assemble_maxStress, assemble_maxMoment, stress_abs_helper]
  · obtain ⟨ha0, haL⟩ := hpos hlt
    refine ⟨_, calculate_eq_cant_point inp I c hL hP hE hbt hlt hres ha0 haL, rfl, ?_⟩
    rw [assemble_maxStress, assemble_maxMoment, stress_abs_helper]
  · refine ⟨_, calculate_eq_cant_udl inp I c hL hP hE hbt hlt hres, rfl, ?_⟩
    rw [assemble_maxStress, assemble_maxMoment, stress_abs_helper]

/-- C7: for every valid spec, maxStress (MPa) equals the absolute internal
peak moment in N-m (the returned kN-m maxMoment times 1000) times c over I,
divided by 1e6; and for a rectangular section the resolved values are
I = (b/1000)*(h/1000)^3/12 m^4 and c = (h/1000)/2 m. -/
theorem max_stress_formula (inp : Inputs) (I c : ℚ)
    (hL : 0 < inp.beamLength) (hP : 0 < inp.load) (hE : 0 < inp.modulusOfElasticity)
    (hres : resolveSection inp = some (I, c))
    (hpos : inp.loadType = .pointLoad →
      0 ≤ inp.loadPosition ∧ inp.loadPosition ≤ inp.beamLength) :
    ∃ r, calculate inp = some r ∧
      r.maxStress = |r.maxMoment * 1000| * c / I / 1000000 ∧
      r.momentOfInertia = I ∧
      (inp.crossSection = .rectangular →
        I = inp.sectionWidth / 1000 * (inp.sectionHeight / 1000) ^ 3 / 12 ∧
        c = inp.sectionHeight / 1000 / 2) := by
  obtain ⟨r, hr, hI, hs⟩ := calc_stress_core inp I c hL hP hE hres hpos
  refine ⟨r, hr, hs, hI, fun hcs => ?_⟩
  have hred : resolveSection inp =
      (if inp.sectionWidth ≤ 0 ∨ inp.sectionHeight ≤ 0 then none
       else some (inp.sectionWidth / 1000 * (inp.sectionHeight / 1000) ^ 3 / 12,
         inp.sectionHeight / 1000 / 2)) := by
    unfold resolveSection
    rw [hcs]
  rw [hred] at hres
  by_cases hch : inp.sectionWidth ≤ 0 ∨ inp.sectionHeight ≤ 0
  · rw [if_pos hch] at hres
    exact absurd hres (by simp)
  · rw [if_neg hch] at hres
    have hp := Prod.ext_iff.mp (Option.some.inj hres)
    exact ⟨hp.1.symm, hp.2.symm⟩

/-- Witness for C7: scenario D - the 150 x 300 mm rectangle resolves to
I = 3.375e-4 m^4 (= 27/80000) and the stress relation holds at scenario A. -/
theorem max_stress_formula_witness :
    resolveSection specPointSS = some (27/80000, 3/20) ∧
      (27:ℚ)/80000 = 3375/10000000 ∧
      (∃ r, calculate specPointSS = some r ∧
        r.maxStress = |r.maxMoment * 1000| * (3/20) / (27/80000) / 1000000 ∧
        r.momentOfInertia = 27/80000) := by
  refine ⟨by norm_num [resolveSection, specPointSS], by norm_num, ?_⟩
  obtain ⟨r, hr, hs, hI, _⟩ := max_stress_formula specPointSS (27/80000) (3/20)
    (by norm_num [specPointSS]) (by norm_num [specPointSS]) (by norm_num [specPointSS])
    (by norm_num [resolveSection, specPointSS]) (fun _ => by norm_num [specPointSS])
  exact ⟨r, hr, hs, hI⟩

/-! ### Claim C8 -/

/-- C8: for UDL specs the loadPosition field has no influence on the
outcome: changing only it yields the identical result (also when the
validation rejects the spec, where both runs reject). -/
theorem udl_ignores_position (inp : Inputs) (p : ℚ) (h : inp.loadType = .udl) :
    calculate { inp with loadPosition := p } = calculate inp := by
  obtain ⟨L, load, a, bt, lt, cs, w, hgt, ft, wt, E, Icm, cmm⟩ := inp
  cases h
  cases bt <;> rfl

/-- Witness for C8: moving the (ignored) load position of scenario B to
7 m leaves the result unchanged. -/
theorem udl_ignores_position_witness :
    specUdlSS.loadType = .udl ∧
      calculate { specUdlSS with loadPosition := 7 } = calculate specUdlSS :=
  ⟨rfl, udl_ignores_position specUdlSS 7 rfl⟩

/-! ### Claim C9 -/

/-- C9: for every valid cantilever spec the returned maxMoment equals the
kN-m moment reaction r2, is non-positive (-P*a for a point load, -w*L^2/2
for a UDL, in kN-m), and the absolute value enters only maxStress, not the
maxMoment field. -/
theorem cantilever_max_moment (inp : Inputs) (I c : ℚ)
    (hL : 0 < inp.beamLength) (hP : 0 < inp.load) (hE : 0 < inp.modulusOfElasticity)
    (hbt : inp.beamType = .cantilever)
    (hres : resolveSection inp = some (I, c))
    (hpos : inp.loadType = .pointLoad →
      0 ≤ inp.loadPosition ∧ inp.loadPosition ≤ inp.beamLength) :
    ∃ r, calculate inp = some r ∧
      r.maxMoment = r.reactions.r2 ∧
      r.maxMoment ≤ 0 ∧
      (inp.loadType = .pointLoad → r.maxMoment = -(inp.load * inp.loadPosition)) ∧
      (inp.loadType = .udl →
        r.maxMoment = -(inp.load * inp.beamLength * inp.beamLength) / 2) ∧
      r.maxStress = |r.maxMoment * 1000| * c / I / 1000000 := by
  cases hlt : inp.loadType
  · obtain ⟨ha0, haL⟩ := hpos hlt
    refine ⟨_, calculate_eq_cant_point inp I c hL hP hE hbt hlt hres ha0 haL,
      rfl, ?_, fun _ => ?_, fun h2 => by simp at h2, ?_⟩
    · show -(inp.load * 1000) * inp.loadPosition / 1000 ≤ 0
      have h1 : 0 ≤ inp.load * 1000 * inp.loadPosition :=
        mul_nonneg (mul_nonneg hP.le (by norm_num)) ha0
      linarith [h1]
    · show -(inp.load * 1000) * inp.loadPosition / 1000 = -(inp.load * inp.loadPosition)
      ring
    · rw [assemble_maxStress, assemble_maxMoment, stress_abs_helper]
  · refine ⟨_, calculate_eq_cant_udl inp I c hL hP hE hbt hlt hres,
      rfl, ?_, fun h2 => by simp at h2, fun _ => ?_, ?_⟩
    · show -(inp.load * 1000 * inp.beamLength * inp.beamLength) / 2 / 1000 ≤ 0
      have h1 : 0 ≤ inp.load * 1000 * inp.beamLength * inp.beamLength :=
        mul_nonneg (mul_nonneg (mul_nonneg hP.le (by norm_num)) hL.le) hL.le
      linarith [h1]
    · show -(inp.load * 1000 * inp.beamLength * inp.beamLength) / 2 / 1000 =
        -(inp.load * inp.beamLength * inp.beamLength) / 2
      ring
    · rw [assemble_maxStress, assemble_maxMoment, stress_abs_helper]

/-- Witness for C9: the cantilever UDL configuration (L = 10 m,
w = 100 kN/m) has maxMoment = r2 = -5000 kN-m, a non-positive value. -/
theorem cantilever_max_moment_witness :
    specCantUdl.beamType = .cantilever ∧
      (∃ r, calculate specCantUdl = some r ∧ r.maxMoment = r.reactions.r2 ∧
        r.maxMoment = -5000 ∧ r.maxMoment ≤ 0) := by
  refine ⟨rfl, ?_⟩
  obtain ⟨r, hr, he, hnp, _, hudl, _⟩ := cantilever_max_moment specCantUdl
    (27/80000) (3/20) (by norm_num [specCantUdl, specPointSS])
    (by norm_num [specCantUdl, specPointSS]) (by norm_num [specCantUdl, specPointSS])
    rfl (by norm_num [resolveSection, specCantUdl, specPointSS])
    (fun h => by simp [specCantUdl, specPointSS] at h)
  refine ⟨r, hr, he, ?_, hnp⟩
  rw [hudl rfl]
  norm_num [specCantUdl, specPointSS]

/-! ### Claim C10 -/

/-- C10: the boundary positions a = 0 and a = L pass the point-load
position check of a simply-supported spec (only a < 0 or a > L is
rejected) and produce a complete result with maxMoment = 0 and
maxStress = 0, with reactions (P, 0) at a = 0 and (0, P) at a = L. -/
theorem ss_point_boundary (inp : Inputs) (I c : ℚ)
    (hL : 0 < inp.beamLength) (hP : 0 < inp.load) (hE : 0 < inp.modulusOfElasticity)
    (hbt : inp.beamType = .simplySupported) (hlt : inp.loadType = .pointLoad)
    (hres : resolveSection inp = some (I, c))
    (ha : inp.loadPosition = 0 ∨ inp.loadPosition = inp.beamLength) :
    ∃ r, calculate inp = some r ∧ r.maxMoment = 0 ∧ r.maxStress = 0 ∧
      (inp.loadPosition = 0 → r.reactions.r1 = inp.load ∧ r.reactions.r2 = 0) ∧
      (inp.loadPosition = inp.beamLength →
        r.reactions.r1 = 0 ∧ r.reactions.r2 = inp.load) := by
  have hL0 : inp.beamLength ≠ 0 := ne_of_gt hL
  have ha0 : 0 ≤ inp.loadPosition := by
    rcases ha with h | h
    · rw [h]
    · rw [h]
      exact hL.le
  have haL : inp.loadPosition ≤ inp.beamLength := by
    rcases ha with h | h
    · rw [h]
      exact hL.le
    · rw [h]
  refine ⟨_, calculate_eq_ss_point inp I c hL hP hE hbt hlt hres ha0 haL,
    ?_, ?_, ?_, ?_⟩
  · show inp.load * 1000 * inp.loadPosition * (inp.beamLength - inp.loadPosition) /
        inp.beamLength / 1000 = 0
    rcases ha with h | h <;> rw [h] <;> simp
  · show |inp.load * 1000 * inp.loadPosition * (inp.beamLength - inp.loadPosition) /
        inp.beamLength| * c / I / 1000000 = 0
    rcases ha with h | h <;> rw [h] <;> simp
  · intro h
    constructor
    · show inp.load * 1000 * (inp.beamLength - inp.loadPosition) / inp.beamLength / 1000 =
        inp.load
      rw [h]
      field_simp
    · show inp.load * 1000 * inp.loadPosition / inp.beamLength / 1000 = 0
      rw [h]
      simp
  · intro h
    constructor
    · show inp.load * 1000 * (inp.beamLength - inp.loadPosition) / inp.beamLength / 1000 = 0
      rw [h]
      simp
    · show inp.load * 1000 * inp.loadPosition / inp.beamLength / 1000 = inp.load
      rw [h]
      field_simp

/-- Witness for C10: scenario A with the load moved to a = 0 yields
reactions (100, 0), maxMoment = 0 and maxStress = 0. -/
theorem ss_point_boundary_witness :
    (specPoint0.loadPosition = 0 ∨ specPoint0.loadPosition = specPoint0.beamLength) ∧
      (∃ r, calculate specPoint0 = some r ∧ r.maxMoment = 0 ∧ r.maxStress = 0 ∧
        (specPoint0.loadPosition = 0 →
          r.reactions.r1 = specPoint0.load ∧ r.reactions.r2 = 0) ∧
        (specPoint0.loadPosition = specPoint0.beamLength →
          r.reactions.r1 = 0 ∧ r.reactions.r2 = specPoint0.load)) := by
  refine ⟨Or.inl rfl, ?_⟩
  exact ss_point_boundary specPoint0 (27/80000) (3/20)
    (by norm_num [specPoint0, specPointSS]) (by norm_num [specPoint0, specPointSS])
    (by norm_num [specPoint0, specPointSS]) rfl rfl
    (by norm_num [resolveSection, specPoint0, specPointSS]) (Or.inl rfl)

end Beam
